import Mathlib

/-
  Verification of the token-craft scoring and bonus computation engine.

  Shallow embedding of the Python sources in src/token_craft/:
  scores and multipliers are embedded as exact rationals (the source uses
  IEEE floats; none of the statements settled here depends on float
  representation error or on the tie behaviour of rounding), dates as
  integer day gaps produced by an abstract parser, and dict-shaped
  profiles as association lists.
-/

namespace TokenCraft

/-- Python round(x, 1) embedded on rationals: round to one decimal place.
Python uses ties-to-even on binary floats; we use half-up on exact
rationals.  No statement below is settled at an exact tie, so the
difference is immaterial. -/
def round1 (q : ℚ) : ℚ := ((⌊q * 10 + 1/2⌋ : ℤ) : ℚ) / 10

/-! ## StreakSystem (src/token_craft/streak_system.py) -/

/-- StreakSystem.STREAK_PROGRESSION: (sessions, multiplier, bonus_points). -/
def STREAK_PROGRESSION : List (ℕ × ℚ × ℚ) :=
  [(1, 1, 0), (2, 21/20, 10), (3, 11/10, 20), (4, 23/20, 30), (5, 6/5, 40), (6, 5/4, 50)]

/-- Result of StreakSystem.get_streak_bonus. -/
structure StreakBonus where
  streak_length : ℕ
  multiplier : ℚ
  bonus_points : ℚ
  is_active : Bool
  deriving Repr, DecidableEq

/-- StreakSystem.get_streak_bonus: scans STREAK_PROGRESSION for the entry whose
`sessions` equals the streak length, defaulting to the LAST entry
(`progression = self.STREAK_PROGRESSION[-1]  # Default to max`) when no row
matches. -/
def get_streak_bonus (streakLength : ℕ) : StreakBonus :=
  let dflt := STREAK_PROGRESSION.getLastD (1, 1, 0)
  let p := (STREAK_PROGRESSION.find? (fun e => e.fst = streakLength)).getD dflt
  { streak_length := streakLength
    multiplier := p.snd.fst
    bonus_points := p.snd.snd
    is_active := streakLength > 0 }

/-! ## ComboBonus (src/token_craft/streak_system.py) -/

/-- ComboBonus.COMBO_TIERS: (categories, bonus, name). -/
def COMBO_TIERS : List (ℕ × ℚ × String) :=
  [(2, 25, "Focused"), (3, 50, "Well-Rounded"), (4, 100, "Proficiency"), (5, 150, "MASTERY")]

/-- ComboBonus.calculate_category_percentage. -/
def calculate_category_percentage (score max_score : ℚ) : ℚ :=
  if max_score = 0 then 0 else min 1 (score / max_score)

/-- Result of ComboBonus.check_combo (the fields the aggregator consumes). -/
structure ComboResult where
  bonus_points : ℚ
  tier_name : String
  excellent_categories : ℕ
  deriving Repr, DecidableEq

/-- ComboBonus.check_combo over the (score, max_score) pairs of the category
scores.  The source iterates COMBO_TIERS in order keeping the last tier whose
`categories` threshold is met. -/
def check_combo (category_scores : List (ℚ × ℚ)) : ComboResult :=
  let pcts := category_scores.map (fun c => calculate_category_percentage c.fst c.snd)
  let excellent := (pcts.filter (fun p => p ≥ 4/5)).length
  let bonus_tier := COMBO_TIERS.foldl
    (fun acc t => if excellent ≥ t.fst then some t else acc) none
  match bonus_tier with
  | some t => { bonus_points := t.snd.fst, tier_name := t.snd.snd, excellent_categories := excellent }
  | none => { bonus_points := 0, tier_name := "None", excellent_categories := excellent }

/-! ## Aggregator bonus pipeline (TokenCraftScorer.calculate_total_score,
src/token_craft/scoring_engine.py lines 1441-1476) -/

/-- The bonus-stacking arithmetic of calculate_total_score: streak bonus read
from the prior streak length, combo bonus from the category scores, then
`score_after_streak = base * multiplier`,
`score_after_combo = score_after_streak + combo_bonus`,
`final = score_after_combo + streak_bonus_points`.
Returns (score_after_streak, score_after_combo, final_before_time). -/
def total_score_pipeline (base_total_score : ℚ) (streakLength : ℕ)
    (category_scores : List (ℚ × ℚ)) : ℚ × ℚ × ℚ :=
  let streak_info := get_streak_bonus streakLength
  let combo_result := check_combo category_scores
  let score_after_streak := base_total_score * streak_info.multiplier
  let score_after_combo := score_after_streak + combo_result.bonus_points
  let final_score := score_after_combo + streak_info.bonus_points
  (score_after_streak, score_after_combo, final_score)

/-! ## Category scoring (src/token_craft/scoring_engine.py) -/

/-- The fields of a CategoryScore that the claims are about. -/
structure CategoryScore where
  score : ℚ
  max_score : ℚ
  percentage : ℚ
  status : String
  deriving Repr, DecidableEq

/-- TokenCraftScorer._calculate_tier_score: consistency-interpolated sliding
scale. -/
def calculate_tier_score (consistency : ℚ) (max_points : ℚ) : ℚ :=
  if consistency ≥ 9/10 then
    max_points
  else if consistency ≥ 7/10 then
    let ratio := (consistency - 7/10) / (2/10)
    max_points * (85/100 + (15/100 * ratio))
  else if consistency ≥ 5/10 then
    let ratio := (consistency - 5/10) / (2/10)
    max_points * (65/100 + (20/100 * ratio))
  else if consistency ≥ 3/10 then
    let ratio := (consistency - 3/10) / (2/10)
    max_points * (40/100 + (25/100 * ratio))
  else
    max_points * (consistency / (3/10)) * (4/10)

/-- TokenCraftScorer.calculate_optimization_adoption_score, parameterised by
the consistency ratio each of the eight sub-checks computes from the session
data (defer_docs 50, claude_md 50, concise_mode 40, direct_commands 60,
context_mgmt 50, xml_tags 20, chain_of_thought 30, examples 25 max points).
The category total is the sum of the eight sub-scores; the reported
max_score is WEIGHTS["optimization_adoption"] = 400. -/
def calculate_optimization_adoption_score
    (cDefer cClaudeMd cConcise cDirect cContext cXml cCot cExamples : ℚ) : CategoryScore :=
  let total :=
    calculate_tier_score cDefer 50 +
    calculate_tier_score cClaudeMd 50 +
    calculate_tier_score cConcise 40 +
    calculate_tier_score cDirect 60 +
    calculate_tier_score cContext 50 +
    calculate_tier_score cXml 20 +
    calculate_tier_score cCot 30 +
    calculate_tier_score cExamples 25
  { score := round1 total
    max_score := 400
    percentage := round1 ((total / 400) * 100)
    status := "" }

/-- TokenCraftScorer.calculate_improvement_trend_score.  Inputs: session
count, the previous snapshot (`none` models a falsy snapshot — Python None or
an empty dict; `some f` a truthy snapshot whose optional
avg_tokens_per_session field is f), the current user average tokens per
session, and baseline["tokens_per_session"] (the default for a snapshot
missing the field).  WEIGHTS["improvement_trend"] = 125. -/
def calculate_improvement_trend_score (totalSessions : ℕ)
    (previousSnapshot : Option (Option ℚ)) (avgTokensPerSession : ℚ)
    (baselineTokensPerSession : ℚ) : CategoryScore :=
  if totalSessions < 10 then
    { score := 50, max_score := 125, percentage := 40, status := "warming_up" }
  else
    match previousSnapshot with
    | none => { score := 50, max_score := 125, percentage := 40, status := "baseline" }
    | some snap =>
      let prev_avg := snap.getD baselineTokensPerSession
      let improvement_pct :=
        if prev_avg = 0 then 0 else ((prev_avg - avgTokensPerSession) / prev_avg) * 100
      let sc : ℚ × String :=
        if improvement_pct ≥ 10 then (150, "excellent")
        else if improvement_pct ≥ 5 then (100, "good")
        else if improvement_pct ≥ 2 then (50, "modest")
        else if improvement_pct ≥ 0 then (20, "maintaining")
        else if improvement_pct ≥ -5 then (0, "slight_degradation")
        else (0, "significant_degradation")
      { score := sc.fst
        max_score := 125
        percentage := round1 ((sc.fst / 125) * 100)
        status := sc.snd }

/-- TokenCraftScorer.calculate_session_focus_score.  Bands on the average
messages per session; the reported max_score is WEIGHTS["session_focus"] = 75. -/
def calculate_session_focus_score (totalSessions totalMessages : ℕ) : CategoryScore :=
  if totalSessions = 0 then
    { score := 25, max_score := 75, percentage := 50, status := "no_sessions" }
  else
    let avg : ℚ := (totalMessages : ℚ) / (totalSessions : ℚ)
    let score : ℚ :=
      if 5 ≤ avg ∧ avg ≤ 15 then 50
      else if (3 ≤ avg ∧ avg < 5) ∨ (15 < avg ∧ avg ≤ 20) then 40
      else if (1 ≤ avg ∧ avg < 3) ∨ (20 < avg ∧ avg ≤ 30) then 20
      else 0
    { score := score
      max_score := 75
      percentage := round1 ((score / 75) * 100)
      status := "" }

/-- Ten category-score pairs with exactly three categories at or above 80%,
used to exercise the combo tier "Well-Rounded". -/
def exampleCategoryScores : List (ℚ × ℚ) :=
  [(80, 100), (90, 100), (85, 100), (10, 100), (0, 100),
   (0, 100), (0, 100), (0, 100), (0, 100), (0, 100)]

/-- A sub-check at 90% consistency (or above) earns its full sub-points. -/
theorem calculate_tier_score_full (c m : ℚ) (h : c ≥ 9/10) :
    calculate_tier_score c m = m := by
  unfold calculate_tier_score
  rw [if_pos h]

/-- round1 is the identity on integers. -/
theorem round1_intCast (z : ℤ) : round1 ((z : ℚ)) = (z : ℚ) := by
  have hfloor : ⌊(z : ℚ) * 10 + 1/2⌋ = z * 10 := by
    rw [Int.floor_eq_iff]
    constructor
    · push_cast
      linarith
    · push_cast
      linarith
  rw [round1, hfloor]
  push_cast
  ring

/-- C1: `calculate_improvement_trend_score` violates the CategoryScore
invariant `0 ≤ score ≤ max_score`: with 10 sessions and a previous snapshot
averaging 1000 tokens against a current average of 800 (a 20% improvement),
the "excellent" band awards score 150 while the reported max_score is
WEIGHTS["improvement_trend"] = 125.  The percentage field does follow the
claimed formula round(100*score/max_score, 1) — here 120.0, itself over
100%. -/
theorem improvement_trend_exceeds_max_score :
    (calculate_improvement_trend_score 10 (some (some 1000)) 800 30000).score = 150 ∧
    (calculate_improvement_trend_score 10 (some (some 1000)) 800 30000).max_score = 125 ∧
    (calculate_improvement_trend_score 10 (some (some 1000)) 800 30000).percentage =
      round1 (100 * 150 / 125) ∧
    ¬((calculate_improvement_trend_score 10 (some (some 1000)) 800 30000).score ≤
      (calculate_improvement_trend_score 10 (some (some 1000)) 800 30000).max_score) := by
  norm_num [calculate_improvement_trend_score]

/-- C2: when every one of the eight optimization-adoption sub-checks has
consistency at least 0.90 (full sub-points), the category total is
50+50+40+60+50+20+30+25 = 325, strictly below the reported max_score of
WEIGHTS["optimization_adoption"] = 400 — the category can never reach the
max the spec promises. -/
theorem optimization_adoption_full_consistency_score :
    (∀ c1 c2 c3 c4 c5 c6 c7 c8 : ℚ,
      c1 ≥ 9/10 → c2 ≥ 9/10 → c3 ≥ 9/10 → c4 ≥ 9/10 →
      c5 ≥ 9/10 → c6 ≥ 9/10 → c7 ≥ 9/10 → c8 ≥ 9/10 →
      (calculate_optimization_adoption_score c1 c2 c3 c4 c5 c6 c7 c8).score = 325 ∧
      (calculate_optimization_adoption_score c1 c2 c3 c4 c5 c6 c7 c8).max_score = 400) ∧
    (calculate_optimization_adoption_score (9/10) (9/10) (9/10) (9/10)
        (9/10) (9/10) (9/10) (9/10)).score ≠
      (calculate_optimization_adoption_score (9/10) (9/10) (9/10) (9/10)
        (9/10) (9/10) (9/10) (9/10)).max_score := by
  have main : ∀ c1 c2 c3 c4 c5 c6 c7 c8 : ℚ,
      c1 ≥ 9/10 → c2 ≥ 9/10 → c3 ≥ 9/10 → c4 ≥ 9/10 →
      c5 ≥ 9/10 → c6 ≥ 9/10 → c7 ≥ 9/10 → c8 ≥ 9/10 →
      (calculate_optimization_adoption_score c1 c2 c3 c4 c5 c6 c7 c8).score = 325 ∧
      (calculate_optimization_adoption_score c1 c2 c3 c4 c5 c6 c7 c8).max_score = 400 := by
    intro c1 c2 c3 c4 c5 c6 c7 c8 h1 h2 h3 h4 h5 h6 h7 h8
    unfold calculate_optimization_adoption_score
    rw [calculate_tier_score_full c1 50 h1, calculate_tier_score_full c2 50 h2,
      calculate_tier_score_full c3 40 h3, calculate_tier_score_full c4 60 h4,
      calculate_tier_score_full c5 50 h5, calculate_tier_score_full c6 20 h6,
      calculate_tier_score_full c7 30 h7, calculate_tier_score_full c8 25 h8]
    refine ⟨?_, rfl⟩
    show round1 (50 + 50 + 40 + 60 + 50 + 20 + 30 + 25 : ℚ) = 325
    rw [show (50 + 50 + 40 + 60 + 50 + 20 + 30 + 25 : ℚ) = ((325 : ℤ) : ℚ) by norm_num,
      round1_intCast]
    norm_num
  refine ⟨main, ?_⟩
  have h := main (9/10) (9/10) (9/10) (9/10) (9/10) (9/10) (9/10) (9/10)
    (le_refl _) (le_refl _) (le_refl _) (le_refl _)
    (le_refl _) (le_refl _) (le_refl _) (le_refl _)
  rw [h.1, h.2]
  norm_num

/-- Closed instance of the C2 theorem at all-perfect consistencies. -/
theorem optimization_adoption_full_consistency_score_witness :
    (calculate_optimization_adoption_score 1 1 1 1 1 1 1 1).score = 325 ∧
    (calculate_optimization_adoption_score 1 1 1 1 1 1 1 1).max_score = 400 :=
  optimization_adoption_full_consistency_score.1 1 1 1 1 1 1 1 1
    (by norm_num) (by norm_num) (by norm_num) (by norm_num)
    (by norm_num) (by norm_num) (by norm_num) (by norm_num)

/-- C3: `get_streak_bonus` matches the claimed table at lengths 1..6, but at
length 0 the table scan finds no row (the table starts at sessions = 1) and
the "default to max" fallback returns the LAST entry, so a zero-length
streak gets multiplier 1.25 and bonus 50 instead of the claimed (1.00, 0). -/
theorem streak_bonus_zero_defaults_to_max :
    get_streak_bonus 0 = ⟨0, 5/4, 50, false⟩ ∧
    get_streak_bonus 1 = ⟨1, 1, 0, true⟩ ∧
    get_streak_bonus 2 = ⟨2, 21/20, 10, true⟩ ∧
    get_streak_bonus 3 = ⟨3, 11/10, 20, true⟩ ∧
    get_streak_bonus 4 = ⟨4, 23/20, 30, true⟩ ∧
    get_streak_bonus 5 = ⟨5, 6/5, 40, true⟩ ∧
    get_streak_bonus 6 = ⟨6, 5/4, 50, true⟩ ∧
    (get_streak_bonus 0).multiplier ≠ 1 := by
  refine ⟨rfl, rfl, rfl, rfl, rfl, rfl, rfl, ?_⟩
  show (5/4 : ℚ) ≠ 1
  norm_num

/-- C4: with the average messages per session inside the optimal band
[5, 15], `calculate_session_focus_score` awards 50 points while reporting
max_score = WEIGHTS["session_focus"] = 75 ("expanded from 50" without
rescaling the bands), so the full-points band never reaches max_score. -/
theorem session_focus_optimal_band_below_max :
    (∀ s m : ℕ, s ≠ 0 → 5 ≤ ((m : ℚ) / (s : ℚ)) → ((m : ℚ) / (s : ℚ)) ≤ 15 →
      (calculate_session_focus_score s m).score = 50 ∧
      (calculate_session_focus_score s m).max_score = 75) ∧
    (calculate_session_focus_score 1 10).score ≠
      (calculate_session_focus_score 1 10).max_score := by
  constructor
  · intro s m hs h5 h15
    constructor
    · unfold calculate_session_focus_score
      rw [if_neg hs]
      dsimp only
      rw [if_pos (And.intro h5 h15)]
    · unfold calculate_session_focus_score
      rw [if_neg hs]
  · norm_num [calculate_session_focus_score]

/-- Closed instance of the C4 theorem at one session of ten messages. -/
theorem session_focus_optimal_band_below_max_witness :
    (calculate_session_focus_score 2 16).score = 50 ∧
    (calculate_session_focus_score 2 16).max_score = 75 :=
  session_focus_optimal_band_below_max.1 2 16 (by norm_num) (by norm_num) (by norm_num)

/-- C5: the aggregator stacks bonuses in the fixed order
base * streak_multiplier, then + combo_bonus, then + streak_bonus_points;
with base 1000, prior streak length 3 (multiplier 1.10, bonus 20) and three
categories at 80%+ (combo tier "Well-Rounded", bonus 50) the intermediate
scores are 1100, 1150 and the pre-time final is 1170. -/
theorem bonus_stacking_order :
    (∀ (base : ℚ) (len : ℕ) (cats : List (ℚ × ℚ)),
      total_score_pipeline base len cats =
        (base * (get_streak_bonus len).multiplier,
         base * (get_streak_bonus len).multiplier + (check_combo cats).bonus_points,
         base * (get_streak_bonus len).multiplier + (check_combo cats).bonus_points +
           (get_streak_bonus len).bonus_points)) ∧
    get_streak_bonus 3 = ⟨3, 11/10, 20, true⟩ ∧
    check_combo exampleCategoryScores = ⟨50, "Well-Rounded", 3⟩ ∧
    total_score_pipeline 1000 3 exampleCategoryScores = (1100, 1150, 1170) := by
  have hpcts : exampleCategoryScores.map
      (fun c => calculate_category_percentage c.fst c.snd) =
      [4/5, 9/10, 17/20, 1/10, 0, 0, 0, 0, 0, 0] := by
    norm_num [exampleCategoryScores, calculate_category_percentage, min_def]
  have hcombo : check_combo exampleCategoryScores = ⟨50, "Well-Rounded", 3⟩ := by
    unfold check_combo
    rw [hpcts]
    norm_num [COMBO_TIERS, List.filter, List.foldl]
  have hstreak : get_streak_bonus 3 = (⟨3, 11/10, 20, true⟩ : StreakBonus) := rfl
  refine ⟨fun base len cats => rfl, hstreak, hcombo, ?_⟩
  show (1000 * (get_streak_bonus 3).multiplier,
      1000 * (get_streak_bonus 3).multiplier +
        (check_combo exampleCategoryScores).bonus_points,
      1000 * (get_streak_bonus 3).multiplier +
        (check_combo exampleCategoryScores).bonus_points +
        (get_streak_bonus 3).bonus_points) = ((1100 : ℚ), (1150 : ℚ), (1170 : ℚ))
  rw [hstreak, hcombo]
  norm_num

/-- Closed instance of the C5 order equation at base 200, streak length 2. -/
theorem bonus_stacking_order_witness :
    total_score_pipeline 200 2 [] =
      (200 * (get_streak_bonus 2).multiplier,
       200 * (get_streak_bonus 2).multiplier + (check_combo []).bonus_points,
       200 * (get_streak_bonus 2).multiplier + (check_combo []).bonus_points +
         (get_streak_bonus 2).bonus_points) :=
  bonus_stacking_order.1 200 2 []

/-! ## TimeBasedMechanics (src/token_craft/time_based_mechanics.py)

Dates are embedded through an abstract parser `parse : String → Option ℤ`
standing for `datetime.fromisoformat` followed by subtraction from
`datetime.now()` (`delta.days`): `parse s = some d` means s parses as a date
d days in the past, `parse s = none` means fromisoformat raises ValueError. -/

/-- TimeBasedMechanics.get_days_since: days since a date, 999 when parsing
fails (ValueError on garbage, TypeError on None). -/
def get_days_since (parse : String → Option ℤ) (dateStr : Option String) : ℤ :=
  match dateStr with
  | none => 999
  | some s => (parse s).getD 999

/-- TimeBasedMechanics.calculate_recency_bonus (the multiplier field). -/
def calculate_recency_bonus (parse : String → Option ℤ) (sessionDate : Option String) : ℚ :=
  let days_ago := get_days_since parse sessionDate
  if days_ago = 0 then 5/4
  else if days_ago ≤ 7 then 23/20
  else if days_ago ≤ 14 then 21/20
  else 1

/-- TimeBasedMechanics.calculate_inactivity_decay (the multiplier field). -/
def calculate_inactivity_decay (parse : String → Option ℤ) (lastSessionDate : Option String) : ℚ :=
  let days_inactive := get_days_since parse lastSessionDate
  if days_inactive ≤ 3 then 1
  else if days_inactive ≤ 7 then 19/20
  else if days_inactive ≤ 14 then 17/20
  else if days_inactive ≤ 30 then 7/10
  else 1/2

/-- The fields of TimeBasedMechanics.apply_time_modifiers the claims are
about.  `combined_multiplier` is kept unrounded here; the source rounds it to
two decimals for display only, while `adjusted_score` is computed from the
unrounded product and rounded to one decimal. -/
structure TimeModifiersResult where
  adjusted_score : ℚ
  combined_multiplier : ℚ
  recency_mult : ℚ
  decay_mult : ℚ
  deriving Repr, DecidableEq

/-- TimeBasedMechanics.apply_time_modifiers.  The decay branch is guarded by
Python truthiness (`if last_session_date:`), so both None and the empty
string skip the inactivity-decay computation entirely. -/
def apply_time_modifiers (parse : String → Option ℤ) (base_score : ℚ)
    (sessionDate : Option String) (lastSessionDate : Option String) : TimeModifiersResult :=
  let recency_mult := calculate_recency_bonus parse sessionDate
  let decay_mult :=
    match lastSessionDate with
    | some s => if s = "" then 1 else calculate_inactivity_decay parse (some s)
    | none => 1
  let combined := recency_mult * decay_mult
  { adjusted_score := round1 (base_score * combined)
    combined_multiplier := combined
    recency_mult := recency_mult
    decay_mult := decay_mult }

/-- Concrete parse environment for the C6 scenario: the current session is
dated today (0 days ago) and the profile was last updated 10 days ago. -/
def parseScenario4 (s : String) : Option ℤ :=
  if s = "2026-10-12" then some 0
  else if s = "2026-10-02" then some 10
  else none

/-- A parse environment in which no string is a parseable date. -/
def parseNothing (_ : String) : Option ℤ := none

/-- C6: apply_time_modifiers multiplies the score by
recency_multiplier * decay_multiplier exactly once; with the session dated
today (recency 1.25) and the profile last updated 10 days ago (the ≤ 14-day
decay band, 0.85), the combined multiplier is 1.25 * 0.85 = 1.0625 = 17/16. -/
theorem time_modifiers_combined_once :
    (∀ (parse : String → Option ℤ) (score : ℚ) (sd ld : Option String),
      (apply_time_modifiers parse score sd ld).adjusted_score =
        round1 (score * ((apply_time_modifiers parse score sd ld).recency_mult *
          (apply_time_modifiers parse score sd ld).decay_mult))) ∧
    (∀ score : ℚ,
      (apply_time_modifiers parseScenario4 score
        (some "2026-10-12") (some "2026-10-02")).recency_mult = 5/4 ∧
      (apply_time_modifiers parseScenario4 score
        (some "2026-10-12") (some "2026-10-02")).decay_mult = 17/20 ∧
      (apply_time_modifiers parseScenario4 score
        (some "2026-10-12") (some "2026-10-02")).combined_multiplier = 17/16 ∧
      (apply_time_modifiers parseScenario4 score
        (some "2026-10-12") (some "2026-10-02")).adjusted_score =
          round1 (score * (17/16))) := by
  have happ : ∀ score : ℚ,
      apply_time_modifiers parseScenario4 score (some "2026-10-12") (some "2026-10-02") =
        { adjusted_score := round1 (score * (5/4 * (17/20)))
          combined_multiplier := 5/4 * (17/20)
          recency_mult := 5/4
          decay_mult := 17/20 } :=
    fun _ => rfl
  constructor
  · intro parse score sd ld
    rfl
  · intro score
    rw [happ score]
    refine ⟨rfl, rfl, by norm_num, ?_⟩
    show round1 (score * (5/4 * (17/20))) = round1 (score * (17/16))
    congr 1
    ring

/-- Closed instance of the C6 combined-multiplier equation at score 1000. -/
theorem time_modifiers_combined_once_witness :
    (apply_time_modifiers parseScenario4 1000
      (some "2026-10-12") (some "2026-10-02")).combined_multiplier = 17/16 :=
  (time_modifiers_combined_once.2 1000).2.2.1

/-- C10 counterexample: the empty string is a supplied, unparseable
last-session date (get_days_since resolves it to 999), yet Python truthiness
(`if last_session_date:`) treats it as absent, so the decay multiplier stays
1.0 instead of the claimed 0.50. -/
theorem malformed_dates_empty_string_skips_decay :
    get_days_since parseNothing (some "") = 999 ∧
    (apply_time_modifiers parseNothing 100 (some "not-a-date") (some "")).decay_mult = 1 ∧
    ¬((apply_time_modifiers parseNothing 100 (some "not-a-date") (some "")).decay_mult
      = 1/2) := by
  refine ⟨rfl, rfl, ?_⟩
  show ¬((1 : ℚ) = 1/2)
  norm_num

/-- C10 (amended): get_days_since returns 999 on None and on every
unparseable date string, so apply_time_modifiers never raises on malformed
dates; a malformed session date lands in the oldest recency band
(multiplier 1.0), and a supplied NON-EMPTY malformed last-session date lands
in the deepest decay band (multiplier 0.50); an empty last-session string is
falsy and skips decay (multiplier 1.0). -/
theorem malformed_dates_resolve_to_oldest_bands :
    ∀ (parse : String → Option ℤ) (score : ℚ) (s ls : String),
      parse s = none → parse ls = none → ls ≠ "" →
      get_days_since parse none = 999 ∧
      get_days_since parse (some s) = 999 ∧
      (apply_time_modifiers parse score (some s) (some ls)).recency_mult = 1 ∧
      (apply_time_modifiers parse score (some s) (some ls)).decay_mult = 1/2 ∧
      (apply_time_modifiers parse score (some s) (some ls)).adjusted_score =
        round1 (score * (1 * (1/2))) := by
  intro parse score s ls hs hls hne
  have hdays : get_days_since parse (some s) = 999 := by
    simp [get_days_since, hs]
  have hdaysl : get_days_since parse (some ls) = 999 := by
    simp [get_days_since, hls]
  have hrec : calculate_recency_bonus parse (some s) = 1 := by
    show (if get_days_since parse (some s) = 0 then (5/4 : ℚ)
      else if get_days_since parse (some s) ≤ 7 then 23/20
      else if get_days_since parse (some s) ≤ 14 then 21/20
      else 1) = 1
    rw [hdays]
    norm_num
  have hdec : calculate_inactivity_decay parse (some ls) = 1/2 := by
    show (if get_days_since parse (some ls) ≤ 3 then (1 : ℚ)
      else if get_days_since parse (some ls) ≤ 7 then 19/20
      else if get_days_since parse (some ls) ≤ 14 then 17/20
      else if get_days_since parse (some ls) ≤ 30 then 7/10
      else 1/2) = 1/2
    rw [hdaysl]
    norm_num
  refine ⟨rfl, hdays, ?_, ?_, ?_⟩
  · show calculate_recency_bonus parse (some s) = 1
    exact hrec
  · show (if ls = "" then (1 : ℚ) else calculate_inactivity_decay parse (some ls)) = 1/2
    rw [if_neg hne]
    exact hdec
  · show round1 (score * (calculate_recency_bonus parse (some s) *
      (if ls = "" then 1 else calculate_inactivity_decay parse (some ls)))) =
        round1 (score * (1 * (1/2)))
    rw [if_neg hne, hrec, hdec]

/-- Closed instance of the C10 amended theorem in the all-unparseable
environment. -/
theorem malformed_dates_resolve_to_oldest_bands_witness :
    get_days_since parseNothing none = 999 ∧
    get_days_since parseNothing (some "garbage") = 999 ∧
    (apply_time_modifiers parseNothing 100 (some "garbage") (some "also-garbage")).recency_mult = 1 ∧
    (apply_time_modifiers parseNothing 100 (some "garbage") (some "also-garbage")).decay_mult = 1/2 ∧
    (apply_time_modifiers parseNothing 100 (some "garbage") (some "also-garbage")).adjusted_score =
      round1 (100 * (1 * (1/2))) :=
  malformed_dates_resolve_to_oldest_bands parseNothing 100 "garbage" "also-garbage"
    rfl rfl (by simp)

/-! ## AchievementEngine (src/token_craft/achievement_engine.py)

The catalog entries keep the fields the unlock contract reads (id, name,
category, points); description, requirement and badge_icon are display-only
strings never consulted by unlock_achievement. -/

/-- An achievement catalog entry. -/
structure Achievement where
  achievement_id : String
  name : String
  category : String
  points : ℤ
  deriving Repr, DecidableEq

/-- AchievementEngine._ACHIEVEMENT_OBJECTS: the fixed catalog of 34
achievements. -/
def ACHIEVEMENT_OBJECTS : List Achievement :=
  [⟨"rank_cadet", "Cadet", "Progression", 20⟩,
   ⟨"rank_navigator", "Navigator", "Progression", 50⟩,
   ⟨"rank_captain", "Captain", "Progression", 100⟩,
   ⟨"rank_admiral", "Admiral", "Progression", 150⟩,
   ⟨"rank_legend", "Galactic Legend", "Progression", 200⟩,
   ⟨"excellence_efficiency", "Efficiency Expert", "Excellence", 75⟩,
   ⟨"excellence_adoption", "Optimization Master", "Excellence", 75⟩,
   ⟨"excellence_cache", "Cache Champion", "Excellence", 75⟩,
   ⟨"excellence_waste", "Zero Waste Pioneer", "Excellence", 75⟩,
   ⟨"excellence_cost", "Cost Efficiency Master", "Excellence", 75⟩,
   ⟨"streak_5", "On Fire", "Streaks", 100⟩,
   ⟨"streak_10", "Unstoppable", "Streaks", 150⟩,
   ⟨"streak_20", "Legendary Consistency", "Streaks", 200⟩,
   ⟨"combo_focused", "Focused Practitioner", "Combos", 50⟩,
   ⟨"combo_wellrounded", "Well-Rounded Optimizer", "Combos", 100⟩,
   ⟨"combo_mastery", "MASTERY: All Categories", "Combos", 200⟩,
   ⟨"explore_10", "First Flight", "Exploration", 25⟩,
   ⟨"explore_50", "Experienced Explorer", "Exploration", 75⟩,
   ⟨"explore_100", "Century Club", "Exploration", 150⟩,
   ⟨"explore_250", "Veteran Navigator", "Exploration", 200⟩,
   ⟨"special_zero_waste", "Zero Waste Day", "Special", 60⟩,
   ⟨"special_consistency", "Consistency King", "Special", 150⟩,
   ⟨"special_speedrun", "Speed Demon", "Special", 100⟩,
   ⟨"special_comeback", "Comeback Kid", "Special", 80⟩,
   ⟨"special_peak", "Peak Performance", "Special", 120⟩,
   ⟨"sustainability_paced", "Steady Climber", "Sustainability", 100⟩,
   ⟨"sustainability_balanced", "Balanced Optimizer", "Sustainability", 75⟩,
   ⟨"sustainability_rest", "Rest is Productive", "Sustainability", 80⟩,
   ⟨"sustainability_longterm", "Marathon Mindset", "Sustainability", 150⟩,
   ⟨"sustainability_wisdom", "Wisdom Over Grind", "Sustainability", 125⟩,
   ⟨"special_concise", "Concise Communicator", "Special", 75⟩,
   ⟨"special_flawless", "Flawless Execution", "Special", 100⟩,
   ⟨"special_model_maestro", "Model Maestro", "Special", 100⟩,
   ⟨"special_batch_master", "Batch Master", "Special", 75⟩]

/-- Whether the pattern occurs at the head of the character list. -/
def charsMatchAt : List Char → List Char → Bool
  | [], _ => true
  | _ :: _, [] => false
  | p :: ps, c :: cs => (p = c) && charsMatchAt ps cs

/-- Whether the pattern occurs anywhere in the character list (Python
`pattern in s`). -/
def charsContain (pattern : List Char) : List Char → Bool
  | [] => charsMatchAt pattern []
  | c :: cs => charsMatchAt pattern (c :: cs) || charsContain pattern cs

/-- The characters before the first underscore (Python `s.split("_")[0]`). -/
def takeUntilUnderscore : List Char → List Char
  | [] => []
  | c :: cs => if c = '_' then [] else c :: takeUntilUnderscore cs

/-- AchievementEngine.get_achievement_by_id: exact catalog lookup, then the
backwards-compatibility alias "<x>_ranked" → "rank_<x>" for ids containing
"_ranked". -/
def get_achievement_by_id (achievement_id : String) : Option Achievement :=
  match ACHIEVEMENT_OBJECTS.find? (fun a => a.achievement_id = achievement_id) with
  | some a => some a
  | none =>
    if charsContain "_ranked".data achievement_id.data then
      let alt_id_v2 := "rank_" ++ String.mk (takeUntilUnderscore achievement_id.data)
      ACHIEVEMENT_OBJECTS.find? (fun a => a.achievement_id = alt_id_v2)
    else none

/-- The result dict of AchievementEngine.unlock_achievement (discriminated by
its "status" key). -/
inductive UnlockResult where
  | already_unlocked (achievement_id : String)
  | invalid_achievement
  | unlocked (achievement_id name category : String) (points : ℤ) (timestamp : String)
  deriving Repr, DecidableEq

/-- AchievementEngine.unlock_achievement, with the engine state (the
unlock list self.unlocked_achievements of the profile) passed explicitly:
returns the result dict together with the state after the call. -/
def unlock_achievement (unlocked : List String) (achievement_id : String)
    (timestamp : String) : UnlockResult × List String :=
  if achievement_id ∈ unlocked then
    (UnlockResult.already_unlocked achievement_id, unlocked)
  else
    match get_achievement_by_id achievement_id with
    | none => (UnlockResult.invalid_achievement, unlocked)
    | some a =>
      (UnlockResult.unlocked achievement_id a.name a.category a.points timestamp,
       unlocked ++ [achievement_id])

/-- n successive unlock_achievement calls for the same id, threading the
state. -/
def unlock_achievement_iter (n : ℕ) (unlocked : List String)
    (achievement_id timestamp : String) : List String :=
  match n with
  | 0 => unlocked
  | Nat.succ m =>
    unlock_achievement_iter m
      (unlock_achievement unlocked achievement_id timestamp).snd achievement_id timestamp

/-- Unlocking an already-unlocked id is a no-op reporting already_unlocked. -/
theorem unlock_achievement_of_mem (unlocked : List String) (aid ts : String)
    (h : aid ∈ unlocked) :
    unlock_achievement unlocked aid ts = (UnlockResult.already_unlocked aid, unlocked) := by
  unfold unlock_achievement
  rw [if_pos h]

/-- Iterated unlocking leaves a state already containing the id unchanged. -/
theorem unlock_achievement_iter_of_mem (aid ts : String) :
    ∀ (n : ℕ) (unlocked : List String), aid ∈ unlocked →
      unlock_achievement_iter n unlocked aid ts = unlocked := by
  intro n
  induction n with
  | zero => intro unlocked _; rfl
  | succ m ih =>
    intro unlocked h
    show unlock_achievement_iter m (unlock_achievement unlocked aid ts).snd aid ts = unlocked
    rw [unlock_achievement_of_mem unlocked aid ts h]
    exact ih unlocked h

/-- C8 counterexample: "cadet_ranked" is not a catalog id, yet unlocking it
from the empty state succeeds through the "_ranked" alias (resolving to the
rank_cadet entry) and appends it to the unlock list, instead of returning an
error and leaving the state unchanged. -/
theorem unlock_unknown_alias_id_mutates_state :
    ((ACHIEVEMENT_OBJECTS.map Achievement.achievement_id).contains "cadet_ranked" = false) ∧
    (unlock_achievement [] "cadet_ranked" "t").snd = ["cadet_ranked"] ∧
    (unlock_achievement [] "cadet_ranked" "t").fst =
      UnlockResult.unlocked "cadet_ranked" "Cadet" "Progression" 20 "t" := by
  refine ⟨?_, rfl, rfl⟩
  decide

/-- C8 (amended): unlock_achievement is idempotent — an already-unlocked id
yields already_unlocked and leaves the state unchanged, and after any
positive number of unlock calls for a resolvable id not initially unlocked
the id appears exactly once in the list; an id that resolves to no catalog
entry (neither exactly nor through the "_ranked" alias) never mutates the
list and, when not already in the list, yields invalid_achievement. -/
theorem unlock_achievement_contract :
    (∀ (unlocked : List String) (aid ts : String), aid ∈ unlocked →
      unlock_achievement unlocked aid ts = (UnlockResult.already_unlocked aid, unlocked)) ∧
    (∀ (unlocked : List String) (aid ts : String), get_achievement_by_id aid = none →
      (unlock_achievement unlocked aid ts).snd = unlocked ∧
      (aid ∉ unlocked →
        (unlock_achievement unlocked aid ts).fst = UnlockResult.invalid_achievement)) ∧
    (∀ (n : ℕ) (unlocked : List String) (aid ts : String),
      aid ∉ unlocked → get_achievement_by_id aid ≠ none → 1 ≤ n →
      (unlock_achievement_iter n unlocked aid ts).count aid = 1) := by
  refine ⟨unlock_achievement_of_mem, ?_, ?_⟩
  · intro unlocked aid ts hget
    by_cases hmem : aid ∈ unlocked
    · rw [unlock_achievement_of_mem unlocked aid ts hmem]
      exact ⟨rfl, fun hcontra => absurd hmem hcontra⟩
    · unfold unlock_achievement
      rw [if_neg hmem, hget]
      exact ⟨rfl, fun _ => rfl⟩
  · intro n unlocked aid ts hmem hget h1
    match n, h1 with
    | Nat.succ m, _ =>
      obtain ⟨a, ha⟩ := Option.ne_none_iff_exists'.mp hget
      have hstep : (unlock_achievement unlocked aid ts).snd = unlocked ++ [aid] := by
        unfold unlock_achievement
        rw [if_neg hmem, ha]
      show (unlock_achievement_iter m (unlock_achievement unlocked aid ts).snd aid ts).count aid = 1
      rw [hstep, unlock_achievement_iter_of_mem aid ts m (unlocked ++ [aid])
        (List.mem_append_right unlocked (List.mem_singleton_self aid))]
      rw [List.count_append]
      rw [List.count_eq_zero_of_not_mem hmem]
      simp

/-- Closed instance of the C8 amended contract: a double unlock of streak_5
from the empty state, and an unresolvable id leaving the state unchanged. -/
theorem unlock_achievement_contract_witness :
    unlock_achievement ["streak_5"] "streak_5" "t" =
      (UnlockResult.already_unlocked "streak_5", ["streak_5"]) ∧
    (unlock_achievement [] "bogus_id" "t").snd = [] ∧
    (unlock_achievement_iter 3 [] "streak_5" "t").count "streak_5" = 1 :=
  ⟨unlock_achievement_contract.1 ["streak_5"] "streak_5" "t"
      (List.mem_singleton_self "streak_5"),
   (unlock_achievement_contract.2.1 [] "bogus_id" "t" (by decide)).1,
   unlock_achievement_contract.2.2 3 [] "streak_5" "t"
     (List.not_mem_nil "streak_5") (by decide) (by decide)⟩

/-! ## MigrationEngine (src/token_craft/migration_engine.py)

Profiles are JSON-like Python dicts; we embed them as association lists of
string keys and values, with insertion-order-preserving update (Python dict
assignment keeps the position of an existing key and appends a new one). -/

/-- A JSON-like value. -/
inductive Val where
  | str (s : String)
  | num (n : ℤ)
  | null
  | list (xs : List Val)
  | dict (d : List (String × Val))

/-- A dict: an association list with (for well-formed inputs) unique keys. -/
abbrev PDict := List (String × Val)

/-- Dict lookup (first matching key). -/
def dget : PDict → String → Option Val
  | [], _ => none
  | (k, v) :: rest, key => if k = key then some v else dget rest key

/-- Python d.get(key, default). -/
def dgetD (d : PDict) (key : String) (dflt : Val) : Val :=
  (dget d key).getD dflt

/-- Dict assignment d[key] = val: replaces in place, or appends a new key. -/
def dset : PDict → String → Val → PDict
  | [], key, val => [(key, val)]
  | (k, v) :: rest, key, val =>
    if k = key then (key, val) :: rest else (k, v) :: dset rest key val

/-- Python del d[key] (removes every binding of the key). -/
def ddel : PDict → String → PDict
  | [], _ => []
  | (k, v) :: rest, key =>
    if k = key then ddel rest key else (k, v) :: ddel rest key

/-- MigrationEngine.SCHEMA_VERSION_CURRENT. -/
def SCHEMA_VERSION_CURRENT : String := "3.0"

/-- MigrationEngine.SCHEMA_VERSION_LEGACY. -/
def SCHEMA_VERSION_LEGACY : String := "2.0"

/-- MigrationEngine.REMOVED_CATEGORIES. -/
def REMOVED_CATEGORIES : List String := ["self_sufficiency"]

/-- MigrationEngine._new_streak. -/
def migration_new_streak : PDict :=
  [("length", Val.num 0), ("start_date", Val.null), ("last_session_date", Val.null),
   ("last_session_score", Val.num 0), ("bonus_points_earned", Val.num 0)]

/-- MigrationEngine.create_migration_snapshot (datetime.now() passed in as
nowTs). -/
def create_migration_snapshot (old_profile : PDict) (nowTs : String) : PDict :=
  [("v2_final_score", dgetD old_profile "current_score" (Val.num 0)),
   ("v2_current_rank", dgetD old_profile "current_rank" (Val.str "Cadet")),
   ("v2_scores", dgetD old_profile "scores" (Val.dict [])),
   ("v2_total_sessions", dgetD old_profile "total_sessions" (Val.num 0)),
   ("v2_total_tokens", dgetD old_profile "total_tokens" (Val.num 0)),
   ("migration_timestamp", Val.str nowTs)]

/-- The first block of migrate_profile: dict-copy plus the five direct key
assignments, in source order (version, migration, legacy, streak_info,
seasonal_info). -/
def migrate_base_updates (old_profile : PDict) (nowTs : String) : PDict :=
  dset (dset (dset (dset (dset old_profile
    "version" (Val.str SCHEMA_VERSION_CURRENT))
    "migration" (Val.dict
      [("source_version", Val.str SCHEMA_VERSION_LEGACY),
       ("target_version", Val.str SCHEMA_VERSION_CURRENT),
       ("migrated_at", Val.str nowTs)]))
    "legacy" (Val.dict (create_migration_snapshot old_profile nowTs)))
    "streak_info" (Val.dict
      [("current", Val.dict migration_new_streak),
       ("best", Val.dict migration_new_streak)]))
    "seasonal_info" (Val.dict
      [("current_season_score", Val.num 0), ("lifetime_score", Val.num 0),
       ("current_season_start", Val.str nowTs), ("last_reset", Val.null)])

/-- The `if "achievements" not in new_profile:` initialisation step. -/
def migrate_achievements_init (p : PDict) : PDict :=
  if (dget p "achievements").isSome then p
  else dset p "achievements" (Val.list [])

/-- The removal loop
`for cat in REMOVED_CATEGORIES: if cat in scores: del scores[cat]`; it
applies only when the "scores" value is a dict (a non-dict "scores" value
would make the Python `in`/`del` fail, which no claim exercises). -/
def migrate_scores_removal (p : PDict) : PDict :=
  match dget p "scores" with
  | some (Val.dict s) =>
    dset p "scores" (Val.dict (REMOVED_CATEGORIES.foldl (fun acc cat => ddel acc cat) s))
  | _ => p

/-- MigrationEngine.migrate_profile: the three statement blocks of the
source, composed in order. -/
def migrate_profile (old_profile : PDict) (nowTs : String) : PDict :=
  migrate_scores_removal (migrate_achievements_init (migrate_base_updates old_profile nowTs))

/-- MigrationEngine.need_migration: profile.get("version", "2.0") compared
against the current constant (a non-string version value compares unequal). -/
def need_migration (profile : PDict) : Bool :=
  match dgetD profile "version" (Val.str "2.0") with
  | Val.str s => s ≠ SCHEMA_VERSION_CURRENT
  | _ => true

/-- MigrationEngine.migrate_if_needed (the validation step only prints
warnings and does not change the returned profile). -/
def migrate_if_needed (profile : PDict) (nowTs : String) : PDict :=
  if need_migration profile then migrate_profile profile nowTs else profile

/-- Updating a key makes it present with the new value. -/
theorem dget_dset_self (d : PDict) (k : String) (v : Val) :
    dget (dset d k v) k = some v := by
  induction d with
  | nil => simp [dset, dget]
  | cons hd tl ih =>
    obtain ⟨k0, v0⟩ := hd
    by_cases h0 : k0 = k
    · simp [dset, if_pos h0, dget]
    · simp only [dset, if_neg h0, dget, if_neg h0]
      exact ih

/-- Updating one key leaves the binding of every other key unchanged. -/
theorem dget_dset_ne (d : PDict) (k : String) (v : Val) (k' : String) (h : k' ≠ k) :
    dget (dset d k v) k' = dget d k' := by
  induction d with
  | nil =>
    simp only [dset, dget]
    rw [if_neg (fun he => h he.symm)]
  | cons hd tl ih =>
    obtain ⟨k0, v0⟩ := hd
    by_cases h0 : k0 = k
    · subst h0
      simp only [dset, if_pos rfl, dget]
      rw [if_neg (fun he => h he.symm), if_neg (fun he => h he.symm)]
    · simp only [dset, if_neg h0, dget]
      by_cases h1 : k0 = k'
      · rw [if_pos h1, if_pos h1]
      · rw [if_neg h1, if_neg h1]
        exact ih

/-- The achievements-initialisation step touches no other key. -/
theorem dget_migrate_achievements_init_ne (d : PDict) (k : String)
    (h : k ≠ "achievements") :
    dget (migrate_achievements_init d) k = dget d k := by
  unfold migrate_achievements_init
  by_cases hA : (dget d "achievements").isSome
  · rw [if_pos hA]
  · rw [if_neg hA, dget_dset_ne _ _ _ _ h]

/-- The scores-removal step touches no other key. -/
theorem dget_migrate_scores_removal_ne (d : PDict) (k : String)
    (h : k ≠ "scores") :
    dget (migrate_scores_removal d) k = dget d k := by
  unfold migrate_scores_removal
  cases hs : dget d "scores" with
  | none => rfl
  | some v =>
    cases v with
    | dict s => exact dget_dset_ne _ _ _ _ h
    | str s => rfl
    | num n => rfl
    | null => rfl
    | list xs => rfl

/-- When scores is a dict, the removal step deletes self_sufficiency from it. -/
theorem dget_migrate_scores_removal_dict (d : PDict) (s : List (String × Val))
    (h : dget d "scores" = some (Val.dict s)) :
    dget (migrate_scores_removal d) "scores" =
      some (Val.dict (ddel s "self_sufficiency")) := by
  unfold migrate_scores_removal
  rw [h]
  exact dget_dset_self _ _ _

/-- C9: a profile carrying the current version "3.0" needs no migration and
passes through migrate_if_needed unchanged; migrate_profile sets the version
to "3.0", adds the streak_info, seasonal_info, legacy and migration fields,
removes the deprecated self_sufficiency category from a dict-valued scores
map, and passes every other key through unchanged. -/
theorem migration_contract :
    (∀ (p : PDict) (ts : String), dget p "version" = some (Val.str "3.0") →
      need_migration p = false ∧ migrate_if_needed p ts = p) ∧
    (∀ (p : PDict) (ts : String), need_migration p = true →
      (dget (migrate_profile p ts) "streak_info").isSome = true ∧
      (dget (migrate_profile p ts) "seasonal_info").isSome = true ∧
      (dget (migrate_profile p ts) "legacy").isSome = true ∧
      (dget (migrate_profile p ts) "migration").isSome = true ∧
      dget (migrate_profile p ts) "version" = some (Val.str "3.0") ∧
      (∀ s : List (String × Val), dget p "scores" = some (Val.dict s) →
        dget (migrate_profile p ts) "scores" =
          some (Val.dict (ddel s "self_sufficiency"))) ∧
      (∀ k : String, k ∉ ["version", "migration", "legacy", "streak_info",
          "seasonal_info", "achievements", "scores"] →
        dget (migrate_profile p ts) k = dget p k)) := by
  constructor
  · intro p ts hv
    have hneed : need_migration p = false := by
      unfold need_migration dgetD
      rw [hv]
      simp [SCHEMA_VERSION_CURRENT]
    refine ⟨hneed, ?_⟩
    unfold migrate_if_needed
    rw [hneed]
    simp
  · intro p ts _
    refine ⟨?_, ?_, ?_, ?_, ?_, ?_, ?_⟩
    · rw [migrate_profile, dget_migrate_scores_removal_ne _ _ (by decide),
        dget_migrate_achievements_init_ne _ _ (by decide), migrate_base_updates,
        dget_dset_ne _ _ _ _ (by decide), dget_dset_self]
      rfl
    · rw [migrate_profile, dget_migrate_scores_removal_ne _ _ (by decide),
        dget_migrate_achievements_init_ne _ _ (by decide), migrate_base_updates,
        dget_dset_self]
      rfl
    · rw [migrate_profile, dget_migrate_scores_removal_ne _ _ (by decide),
        dget_migrate_achievements_init_ne _ _ (by decide), migrate_base_updates,
        dget_dset_ne _ _ _ _ (by decide), dget_dset_ne _ _ _ _ (by decide),
        dget_dset_self]
      rfl
    · rw [migrate_profile, dget_migrate_scores_removal_ne _ _ (by decide),
        dget_migrate_achievements_init_ne _ _ (by decide), migrate_base_updates,
        dget_dset_ne _ _ _ _ (by decide), dget_dset_ne _ _ _ _ (by decide),
        dget_dset_ne _ _ _ _ (by decide), dget_dset_self]
      rfl
    · rw [migrate_profile, dget_migrate_scores_removal_ne _ _ (by decide),
        dget_migrate_achievements_init_ne _ _ (by decide), migrate_base_updates,
        dget_dset_ne _ _ _ _ (by decide), dget_dset_ne _ _ _ _ (by decide),
        dget_dset_ne _ _ _ _ (by decide), dget_dset_ne _ _ _ _ (by decide),
        dget_dset_self]
      rfl
    · intro s hs
      rw [migrate_profile]
      apply dget_migrate_scores_removal_dict
      rw [dget_migrate_achievements_init_ne _ _ (by decide), migrate_base_updates,
        dget_dset_ne _ _ _ _ (by decide), dget_dset_ne _ _ _ _ (by decide),
        dget_dset_ne _ _ _ _ (by decide), dget_dset_ne _ _ _ _ (by decide),
        dget_dset_ne _ _ _ _ (by decide)]
      exact hs
    · intro k hk
      simp only [List.mem_cons, List.not_mem_nil, or_false, not_or] at hk
      obtain ⟨h1, h2, h3, h4, h5, h6, h7⟩ := hk
      rw [migrate_profile, dget_migrate_scores_removal_ne _ _ h7,
        dget_migrate_achievements_init_ne _ _ h6, migrate_base_updates,
        dget_dset_ne _ _ _ _ h5, dget_dset_ne _ _ _ _ h4, dget_dset_ne _ _ _ _ h3,
        dget_dset_ne _ _ _ _ h2, dget_dset_ne _ _ _ _ h1]

/-- A profile already on the current schema version. -/
def profileCurrentV : PDict :=
  [("version", Val.str "3.0"), ("custom_field", Val.num 1)]

/-- A stale v2.0 profile with a self_sufficiency score and an unrecognized
extra field. -/
def profileLegacyV : PDict :=
  [("version", Val.str "2.0"), ("current_score", Val.num 100),
   ("scores", Val.dict
     [("self_sufficiency", Val.num 200), ("token_efficiency", Val.num 100)]),
   ("custom_field", Val.str "keep")]

/-- Closed instance of the C9 contract on a current-version profile and on a
stale v2.0 profile. -/
theorem migration_contract_witness :
    need_migration profileCurrentV = false ∧
    migrate_if_needed profileCurrentV "T" = profileCurrentV ∧
    (dget (migrate_profile profileLegacyV "T") "streak_info").isSome = true ∧
    dget (migrate_profile profileLegacyV "T") "scores" =
      some (Val.dict (ddel
        [("self_sufficiency", Val.num 200), ("token_efficiency", Val.num 100)]
        "self_sufficiency")) ∧
    dget (migrate_profile profileLegacyV "T") "custom_field" =
      dget profileLegacyV "custom_field" :=
  ⟨(migration_contract.1 profileCurrentV "T" rfl).1,
   (migration_contract.1 profileCurrentV "T" rfl).2,
   (migration_contract.2 profileLegacyV "T" rfl).1,
   (migration_contract.2 profileLegacyV "T" rfl).2.2.2.2.2.1
     [("self_sufficiency", Val.num 200), ("token_efficiency", Val.num 100)] rfl,
   (migration_contract.2 profileLegacyV "T" rfl).2.2.2.2.2.2 "custom_field" (by decide)⟩

/-! ## Token-efficiency base score
(TokenCraftScorer.calculate_token_efficiency_score,
src/token_craft/scoring_engine.py lines 265-289)

The only transcendental computation in the engine; embedded over ℝ.  The
source guards adjusted_baseline = 0 and user_avg = 0 with a separate neutral
return before the ratio is formed, so the base-score formula is a function of
ratio alone: max_points for ratio ≤ 1, else
max_points * log(1 + 1/ratio) / log 2, with
max_points = WEIGHTS["token_efficiency"] = 250. -/

/-- The token-efficiency base score (before difficulty scaling) as a function
of ratio = user_avg / adjusted_baseline. -/
noncomputable def token_efficiency_base_score (ratio : ℝ) : ℝ :=
  if ratio ≤ 1 then 250
  else 250 * (Real.log (1 + 1/ratio) / Real.log 2)

/-- C7: before difficulty scaling, a ratio at or below 1 earns the full 250
max_points; beyond 1 the base score 250 * log2(1 + 1/ratio) is strictly
decreasing in the ratio and tends to 0 as the ratio tends to infinity. -/
theorem token_efficiency_log_scale :
    (∀ r : ℝ, r ≤ 1 → token_efficiency_base_score r = 250) ∧
    StrictAntiOn token_efficiency_base_score (Set.Ioi (1 : ℝ)) ∧
    Filter.Tendsto token_efficiency_base_score Filter.atTop (nhds 0) := by
  refine ⟨fun r hr => if_pos hr, ?_, ?_⟩
  · intro r hr s hs hrs
    rw [Set.mem_Ioi] at hr hs
    have hr0 : (0 : ℝ) < r := lt_trans one_pos hr
    have hlog2 : (0 : ℝ) < Real.log 2 := Real.log_pos one_lt_two
    have harg : 1 + 1/s < 1 + 1/r := by
      have h := one_div_lt_one_div_of_lt hr0 hrs
      linarith
    have hargpos : (0 : ℝ) < 1 + 1/s := by
      have hs0 : (0 : ℝ) < s := lt_trans one_pos hs
      positivity
    have hloglt : Real.log (1 + 1/s) < Real.log (1 + 1/r) :=
      Real.log_lt_log hargpos harg
    have hdiv : Real.log (1 + 1/s) / Real.log 2 < Real.log (1 + 1/r) / Real.log 2 :=
      by exact div_lt_div_of_pos_right hloglt hlog2
    rw [token_efficiency_base_score, token_efficiency_base_score,
      if_neg (not_le.mpr hr), if_neg (not_le.mpr hs)]
    exact mul_lt_mul_of_pos_left hdiv (by norm_num)
  · have h1 : Filter.Tendsto (fun r : ℝ => 1 + 1/r) Filter.atTop (nhds 1) := by
      have h0 : Filter.Tendsto (fun r : ℝ => 1/r) Filter.atTop (nhds 0) := by
        simpa [one_div] using tendsto_inv_atTop_zero
      simpa using Filter.Tendsto.const_add (1 : ℝ) h0
    have h2 : Filter.Tendsto (fun r : ℝ => Real.log (1 + 1/r)) Filter.atTop (nhds 0) := by
      have hc : ContinuousAt Real.log 1 := Real.continuousAt_log one_ne_zero
      have hcomp := hc.tendsto.comp h1
      simpa [Function.comp, Real.log_one] using hcomp
    have h3 : Filter.Tendsto (fun r : ℝ => 250 * (Real.log (1 + 1/r) / Real.log 2))
        Filter.atTop (nhds 0) := by
      have hdc := (h2.div_const (Real.log 2)).const_mul (250 : ℝ)
      simpa using hdc
    have hev : (fun r : ℝ => 250 * (Real.log (1 + 1/r) / Real.log 2)) =ᶠ[Filter.atTop]
        token_efficiency_base_score := by
      filter_upwards [Filter.eventually_gt_atTop (1 : ℝ)] with r hr
      rw [token_efficiency_base_score, if_neg (not_le.mpr hr)]
    exact h3.congr' hev

/-- Closed instance of the C7 theorem: full points at ratio 1, and the base
score at ratio 4 strictly below the base score at ratio 2. -/
theorem token_efficiency_log_scale_witness :
    token_efficiency_base_score 1 = 250 ∧
    token_efficiency_base_score 4 < token_efficiency_base_score 2 :=
  ⟨token_efficiency_log_scale.1 1 le_rfl,
   token_efficiency_log_scale.2.1 (Set.mem_Ioi.mpr one_lt_two)
     (Set.mem_Ioi.mpr (by norm_num)) (by norm_num)⟩

end TokenCraft
